import Mathlib

/-!
Shallow embedding of the Binance futures testnet trading bot (src/bot.py)
and verification of its specification claims.

The program is a thin client over a remote exchange API. We model the
remote API client (the `binance` `Client` object) as a record of oracle
functions, one per API method used by the bot; each oracle either returns
a value or an error message (the `BinanceAPIException` message). Every
bot operation is embedded as a pure function that returns its result
together with the list of gateway calls it issued, so that call-count
claims (no stop-loss call after a failed take-profit, no compensating
cancel, zero calls on declined confirmation) become statements about
that trace.

Python string methods are embedded as structural functions on the
character list of a `String` (`pyUpper`, `pyLower`, `pyStrip`), which
agree with the Python methods on the inputs relevant here and reduce in
the kernel. Monetary quantities (floats in the source) are modelled as
rationals; at every concrete value appearing in a claim (0.99, 1.01,
100, 99.0, 101.0, 1.5, -2.0) the IEEE double computation in the source
and the rational computation agree exactly, so no claim depends on the
difference.
-/

namespace BinanceBot

/-- Model of Python str.upper: uppercase each character (ASCII range,
which covers every input the claims mention). -/
def pyUpper (s : String) : String := ⟨s.data.map Char.toUpper⟩

/-- Model of Python str.lower: lowercase each character (ASCII range). -/
def pyLower (s : String) : String := ⟨s.data.map Char.toLower⟩

/-- Model of Python str.strip: drop leading and trailing whitespace. -/
def pyStrip (s : String) : String :=
  ⟨(((s.data.dropWhile Char.isWhitespace).reverse).dropWhile Char.isWhitespace).reverse⟩

/-- Errors surfaced by the bot layer. `validationError` models the
ValueError raised by the local side check (message quotes elided);
`apiError` models a re-raised BinanceAPIException carrying the exchange
message; `inputError` models the ValueError raised by the int and float
builtins on malformed numeric prompt input, caught by the same
per-action try block. -/
inductive BotError where
  | validationError (msg : String)
  | apiError (msg : String)
  | inputError (msg : String)
deriving DecidableEq, Repr

/-- Value of a digit string, most significant digit first. -/
def digitsToNat (l : List Char) : Nat :=
  List.foldl (fun n c => n * 10 + (c.toNat - 48)) 0 l

/-- Model of the Python float builtin as applied to stripped prompt
input (bot.py lines 398, 426, 427, 455 to 457, 487 to 489): an optional
sign followed by a decimal literal (digits, optionally with a decimal
point on either side) parses; anything else yields the ValueError
message. Exponent and inf/nan forms, which no claim touches, are not
modelled. -/
def pyFloat (s : String) : Except String ℚ :=
  let p : Bool × List Char :=
    match s.data with
    | '-' :: rest => (true, rest)
    | '+' :: rest => (false, rest)
    | cs => (false, cs)
  let intPart := p.2.takeWhile Char.isDigit
  let after := p.2.dropWhile Char.isDigit
  let mk : List Char → ℚ := fun frac =>
    mkRat ((if p.1 then -1 else 1)
        * Int.ofNat (digitsToNat intPart * 10 ^ frac.length + digitsToNat frac))
      (10 ^ frac.length)
  match after with
  | [] =>
    if intPart.isEmpty then
      .error ("could not convert string to float: " ++ s)
    else
      .ok (mk [])
  | '.' :: frac =>
    if (intPart.isEmpty && frac.isEmpty) || !frac.all Char.isDigit then
      .error ("could not convert string to float: " ++ s)
    else
      .ok (mk frac)
  | _ => .error ("could not convert string to float: " ++ s)

/-- Model of the Python int builtin as applied to stripped prompt input
(bot.py lines 515, 534): an optional sign followed by one or more
digits parses; anything else yields the ValueError message. -/
def pyInt (s : String) : Except String Int :=
  let p : Bool × List Char :=
    match s.data with
    | '-' :: rest => (true, rest)
    | '+' :: rest => (false, rest)
    | cs => (false, cs)
  if p.2.isEmpty || !p.2.all Char.isDigit then
    .error ("invalid literal for int with base 10: " ++ s)
  else
    .ok ((if p.1 then -1 else 1) * Int.ofNat (digitsToNat p.2))

/-- Message of the ValueError raised when the side check fails. -/
def sideErrorMsg : String := "Side must be BUY or SELL"

/-- Exchange order record, reduced to the fields the bot reads. -/
structure Order where
  orderId : Int
  status : String
deriving DecidableEq, Repr

/-- Keyword arguments of a futures_create_order call. -/
structure CreateOrderReq where
  symbol : String
  side : String
  type : String
  quantity : ℚ
  price : Option ℚ
  stopPrice : Option ℚ
  timeInForce : Option String
deriving DecidableEq, Repr

/-- One entry of futures_account_balance. -/
structure Balance where
  asset : String
  balance : ℚ
  availableBalance : ℚ
deriving DecidableEq, Repr

/-- One entry of futures_position_information. -/
structure Position where
  symbol : String
  positionAmt : ℚ
  entryPrice : ℚ
  unRealizedProfit : ℚ
  leverage : ℚ
deriving DecidableEq, Repr

/-- A call made to the remote API client, one constructor per client
method the bot uses. -/
inductive GatewayCall where
  | createOrder (req : CreateOrderReq)
  | cancelOrder (symbol : String) (orderId : Int)
  | symbolTicker (symbol : String)
  | accountBalance
  | getOrder (symbol : String) (orderId : Int)
  | openOrders (symbol : Option String)
  | positionInformation (symbol : Option String)
deriving DecidableEq, Repr

/-- The remote API client, modelled as one oracle per method: each call
either returns a value or fails with the exchange message. -/
structure Client where
  futures_create_order : CreateOrderReq → Except String Order
  futures_cancel_order : String → Int → Except String Order
  futures_symbol_ticker : String → Except String ℚ
  futures_account_balance : Except String (List Balance)
  futures_get_open_orders : Option String → Except String (List Order)
  futures_position_information : Option String → Except String (List Position)
  futures_get_order : String → Int → Except String Order

/-- BinanceFuturesBot.get_account_balance (bot.py lines 55 to 63). -/
def get_account_balance (client : Client) :
    Except BotError (List Balance) × List GatewayCall :=
  match client.futures_account_balance with
  | .ok balance => (.ok balance, [.accountBalance])
  | .error e => (.error (.apiError e), [.accountBalance])

/-- BinanceFuturesBot.get_symbol_price (bot.py lines 65 to 72). -/
def get_symbol_price (client : Client) (symbol : String) :
    Except BotError ℚ × List GatewayCall :=
  match client.futures_symbol_ticker symbol with
  | .ok price => (.ok price, [.symbolTicker symbol])
  | .error e => (.error (.apiError e), [.symbolTicker symbol])

/-- The keyword arguments of the MARKET order submission (bot.py lines
83 to 88). -/
def marketRequest (symbol side : String) (quantity : ℚ) : CreateOrderReq :=
  { symbol := symbol, side := side, type := "MARKET", quantity := quantity,
    price := none, stopPrice := none, timeInForce := none }

/-- The keyword arguments of the LIMIT order submission (bot.py lines
107 to 114). -/
def limitRequest (symbol side : String) (quantity price : ℚ)
    (time_in_force : String) : CreateOrderReq :=
  { symbol := symbol, side := side, type := "LIMIT", quantity := quantity,
    price := some price, stopPrice := none, timeInForce := some time_in_force }

/-- The keyword arguments of the STOP order submission (bot.py lines 135
to 143). -/
def stopLimitRequest (symbol side : String)
    (quantity stop_price limit_price : ℚ) (time_in_force : String) :
    CreateOrderReq :=
  { symbol := symbol, side := side, type := "STOP", quantity := quantity,
    price := some limit_price, stopPrice := some stop_price,
    timeInForce := some time_in_force }

/-- BinanceFuturesBot.place_market_order (bot.py lines 74 to 95): upper
the side, reject anything other than BUY or SELL before any exchange
call, then submit a MARKET order. -/
def place_market_order (client : Client) (symbol side : String) (quantity : ℚ) :
    Except BotError Order × List GatewayCall :=
  let side := pyUpper side
  if side ∉ (["BUY", "SELL"] : List String) then
    (.error (.validationError sideErrorMsg), [])
  else
    let req := marketRequest symbol side quantity
    match client.futures_create_order req with
    | .ok order => (.ok order, [.createOrder req])
    | .error e => (.error (.apiError e), [.createOrder req])

/-- BinanceFuturesBot.place_limit_order (bot.py lines 97 to 121). The
Python default time_in_force="GTC" is passed explicitly by callers. -/
def place_limit_order (client : Client) (symbol side : String)
    (quantity price : ℚ) (time_in_force : String) :
    Except BotError Order × List GatewayCall :=
  let side := pyUpper side
  if side ∉ (["BUY", "SELL"] : List String) then
    (.error (.validationError sideErrorMsg), [])
  else
    let req := limitRequest symbol side quantity price time_in_force
    match client.futures_create_order req with
    | .ok order => (.ok order, [.createOrder req])
    | .error e => (.error (.apiError e), [.createOrder req])

/-- BinanceFuturesBot.place_stop_limit_order (bot.py lines 123 to 150). -/
def place_stop_limit_order (client : Client) (symbol side : String)
    (quantity stop_price limit_price : ℚ) (time_in_force : String) :
    Except BotError Order × List GatewayCall :=
  let side := pyUpper side
  if side ∉ (["BUY", "SELL"] : List String) then
    (.error (.validationError sideErrorMsg), [])
  else
    let req := stopLimitRequest symbol side quantity stop_price limit_price
      time_in_force
    match client.futures_create_order req with
    | .ok order => (.ok order, [.createOrder req])
    | .error e => (.error (.apiError e), [.createOrder req])

/-- Default stop limit price of the OCO emulation (bot.py lines 176 to
178): stop_loss_price times 0.99 for SELL, times 1.01 otherwise. -/
def ocoDefaultStopLimitPrice (side : String) (stop_loss_price : ℚ) : ℚ :=
  if side = "SELL" then stop_loss_price * (99 / 100)
  else stop_loss_price * (101 / 100)

/-- The take-profit leg request of the OCO emulation (bot.py lines 188
to 195): a GTC LIMIT order at the take-profit price. -/
def tpRequest (symbol side : String) (quantity take_profit_price : ℚ) :
    CreateOrderReq :=
  { symbol := symbol, side := side, type := "LIMIT", quantity := quantity,
    price := some take_profit_price, stopPrice := none, timeInForce := some "GTC" }

/-- The stop-loss leg request of the OCO emulation (bot.py lines 200 to
206): a STOP_MARKET order carrying only the stop trigger price. -/
def slRequest (symbol side : String) (quantity stop_loss_price : ℚ) :
    CreateOrderReq :=
  { symbol := symbol, side := side, type := "STOP_MARKET", quantity := quantity,
    price := none, stopPrice := some stop_loss_price, timeInForce := none }

/-- Result dictionary of a successful OCO emulation. -/
structure OcoResult where
  take_profit_order : Order
  stop_loss_order : Order
deriving DecidableEq, Repr

/-- BinanceFuturesBot.place_oco_order (bot.py lines 152 to 218): side
check, then the default stop limit price is computed when the argument
is absent (and never used afterwards, exactly as in the source), then
two sequential non-transactional submissions: the take-profit LIMIT
order first, and only if it succeeds the STOP_MARKET stop-loss order. -/
def place_oco_order (client : Client) (symbol side : String)
    (quantity take_profit_price stop_loss_price : ℚ)
    (stop_limit_price : Option ℚ) :
    Except BotError OcoResult × List GatewayCall :=
  let side := pyUpper side
  if side ∉ (["BUY", "SELL"] : List String) then
    (.error (.validationError sideErrorMsg), [])
  else
    let _stop_limit_price :=
      match stop_limit_price with
      | none => ocoDefaultStopLimitPrice side stop_loss_price
      | some p => p
    let tpReq := tpRequest symbol side quantity take_profit_price
    match client.futures_create_order tpReq with
    | .error e => (.error (.apiError e), [.createOrder tpReq])
    | .ok tp_order =>
      let slReq := slRequest symbol side quantity stop_loss_price
      match client.futures_create_order slReq with
      | .error e => (.error (.apiError e), [.createOrder tpReq, .createOrder slReq])
      | .ok sl_order =>
        (.ok { take_profit_order := tp_order, stop_loss_order := sl_order },
         [.createOrder tpReq, .createOrder slReq])

/-- BinanceFuturesBot.get_order_status (bot.py lines 220 to 228). -/
def get_order_status (client : Client) (symbol : String) (order_id : Int) :
    Except BotError Order × List GatewayCall :=
  match client.futures_get_order symbol order_id with
  | .ok order => (.ok order, [.getOrder symbol order_id])
  | .error e => (.error (.apiError e), [.getOrder symbol order_id])

/-- BinanceFuturesBot.cancel_order (bot.py lines 230 to 238). -/
def cancel_order (client : Client) (symbol : String) (order_id : Int) :
    Except BotError Order × List GatewayCall :=
  match client.futures_cancel_order symbol order_id with
  | .ok result => (.ok result, [.cancelOrder symbol order_id])
  | .error e => (.error (.apiError e), [.cancelOrder symbol order_id])

/-- BinanceFuturesBot.get_open_orders (bot.py lines 240 to 248). -/
def get_open_orders (client : Client) (symbol : Option String) :
    Except BotError (List Order) × List GatewayCall :=
  match client.futures_get_open_orders symbol with
  | .ok orders => (.ok orders, [.openOrders symbol])
  | .error e => (.error (.apiError e), [.openOrders symbol])

/-- BinanceFuturesBot.get_position_info (bot.py lines 250 to 260): fetch
all positions, then keep exactly those whose amount is nonzero. -/
def get_position_info (client : Client) (symbol : Option String) :
    Except BotError (List Position) × List GatewayCall :=
  match client.futures_position_information symbol with
  | .ok positions =>
    (.ok (positions.filter fun p => decide (p.positionAmt ≠ 0)),
     [.positionInformation symbol])
  | .error e => (.error (.apiError e), [.positionInformation symbol])

/-- True exactly on the stop-loss leg submission of the OCO emulation:
a create-order call of type STOP_MARKET. -/
def isStopLossCreate : GatewayCall → Bool
  | .createOrder req => req.type == "STOP_MARKET"
  | _ => false

/-- True exactly on cancel-order calls. -/
def isCancelCall : GatewayCall → Bool
  | .cancelOrder _ _ => true
  | _ => false

/-- True on the calls that change exchange state: order creation and
order cancellation. -/
def isMutatingCall : GatewayCall → Bool
  | .createOrder _ => true
  | .cancelOrder _ _ => true
  | _ => false

/-- Effect of one gateway call on the list of orders live on the
exchange: a successful create appends the returned order, a cancel
removes the orders with the cancelled id, queries change nothing. Used
to state that an already-placed order remains placed. -/
def applyCall (client : Client) (orders : List Order) : GatewayCall → List Order
  | .createOrder req =>
    match client.futures_create_order req with
    | .ok o => orders ++ [o]
    | .error _ => orders
  | .cancelOrder _ oid => orders.filter fun o => o.orderId != oid
  | _ => orders

/-- Orders live on the exchange after a trace of gateway calls, starting
from an empty book. -/
def ordersRemaining (client : Client) (calls : List GatewayCall) : List Order :=
  calls.foldl (applyCall client) []

/-- Confirmation test used by every UI prompt (bot.py lines 404, 433,
464, 498, 519): the lowercased answer must equal the string y. -/
def isAffirmative (confirm : String) : Bool := pyLower confirm == "y"

/-- What a single UI action renders: the outcome shown to the operator.
Every constructor corresponds to a terminal print path of the source;
errorShown is the except branch that renders the caught error. -/
inductive UIResult where
  | placed (orderId : Int)
  | ocoPlaced (tpOrderId slOrderId : Int)
  | cancelled
  | declined
  | balanceShown (rows : List Balance)
  | openOrdersShown (orders : List Order)
  | positionsShown (positions : List Position)
  | statusShown (order : Order)
  | errorShown (e : BotError)
deriving DecidableEq, Repr

/-- TradingUI.display_balance (bot.py lines 308 to 328): fetch the
balances and render only the rows whose balance is strictly positive. -/
def display_balance (client : Client) : UIResult × List GatewayCall :=
  match get_account_balance client with
  | (.ok balance, tr) =>
    (.balanceShown (balance.filter fun a => decide (0 < a.balance)), tr)
  | (.error e, tr) => (.errorShown e, tr)

/-- TradingUI.display_open_orders (bot.py lines 330 to 355): a blank
symbol queries all symbols. -/
def display_open_orders (client : Client) (symbol : String) :
    UIResult × List GatewayCall :=
  let symbol := pyUpper (pyStrip symbol)
  let symArg : Option String := if symbol = "" then none else some symbol
  match get_open_orders client symArg with
  | (.ok orders, tr) => (.openOrdersShown orders, tr)
  | (.error e, tr) => (.errorShown e, tr)

/-- TradingUI.display_positions (bot.py lines 357 to 384). -/
def display_positions (client : Client) : UIResult × List GatewayCall :=
  match get_position_info client none with
  | (.ok positions, tr) => (.positionsShown positions, tr)
  | (.error e, tr) => (.errorShown e, tr)

/-- TradingUI.place_market_order_ui (bot.py lines 386 to 412): show the
current price (a gateway call made before the confirmation prompt),
then ask for confirmation; only an affirmative answer reaches the bot.
Prompted numeric fields are modelled as already-parsed parameters. -/
def place_market_order_ui (client : Client) (symbol side : String)
    (quantity : ℚ) (confirm : String) : UIResult × List GatewayCall :=
  let symbol := pyUpper (pyStrip symbol)
  match get_symbol_price client symbol with
  | (.error e, tr) => (.errorShown e, tr)
  | (.ok _current_price, tr) =>
    let side := pyUpper (pyStrip side)
    if isAffirmative confirm then
      match place_market_order client symbol side quantity with
      | (.ok order, tr2) => (.placed order.orderId, tr ++ tr2)
      | (.error e, tr2) => (.errorShown e, tr ++ tr2)
    else
      (.declined, tr)

/-- TradingUI.place_limit_order_ui (bot.py lines 414 to 441). -/
def place_limit_order_ui (client : Client) (symbol side : String)
    (quantity price : ℚ) (confirm : String) : UIResult × List GatewayCall :=
  let symbol := pyUpper (pyStrip symbol)
  match get_symbol_price client symbol with
  | (.error e, tr) => (.errorShown e, tr)
  | (.ok _current_price, tr) =>
    let side := pyUpper (pyStrip side)
    if isAffirmative confirm then
      match place_limit_order client symbol side quantity price "GTC" with
      | (.ok order, tr2) => (.placed order.orderId, tr ++ tr2)
      | (.error e, tr2) => (.errorShown e, tr ++ tr2)
    else
      (.declined, tr)

/-- TradingUI.place_stop_limit_order_ui (bot.py lines 443 to 472). -/
def place_stop_limit_order_ui (client : Client) (symbol side : String)
    (quantity stop_price limit_price : ℚ) (confirm : String) :
    UIResult × List GatewayCall :=
  let symbol := pyUpper (pyStrip symbol)
  match get_symbol_price client symbol with
  | (.error e, tr) => (.errorShown e, tr)
  | (.ok _current_price, tr) =>
    let side := pyUpper (pyStrip side)
    if isAffirmative confirm then
      match place_stop_limit_order client symbol side quantity stop_price
          limit_price "GTC" with
      | (.ok order, tr2) => (.placed order.orderId, tr ++ tr2)
      | (.error e, tr2) => (.errorShown e, tr ++ tr2)
    else
      (.declined, tr)

/-- TradingUI.place_oco_order_ui (bot.py lines 474 to 507): the UI never
supplies a stop limit price, so place_oco_order receives none. -/
def place_oco_order_ui (client : Client) (symbol side : String)
    (quantity tp_price sl_price : ℚ) (confirm : String) :
    UIResult × List GatewayCall :=
  let symbol := pyUpper (pyStrip symbol)
  match get_symbol_price client symbol with
  | (.error e, tr) => (.errorShown e, tr)
  | (.ok _current_price, tr) =>
    let side := pyUpper (pyStrip side)
    if isAffirmative confirm then
      match place_oco_order client symbol side quantity tp_price sl_price none with
      | (.ok result, tr2) =>
        (.ocoPlaced result.take_profit_order.orderId result.stop_loss_order.orderId,
         tr ++ tr2)
      | (.error e, tr2) => (.errorShown e, tr ++ tr2)
    else
      (.declined, tr)

/-- TradingUI.cancel_order_ui (bot.py lines 509 to 526): no gateway call
at all happens before the confirmation prompt. -/
def cancel_order_ui (client : Client) (symbol : String) (order_id : Int)
    (confirm : String) : UIResult × List GatewayCall :=
  let symbol := pyUpper (pyStrip symbol)
  if isAffirmative confirm then
    match cancel_order client symbol order_id with
    | (.ok _, tr) => (.cancelled, tr)
    | (.error e, tr) => (.errorShown e, tr)
  else
    (.declined, [])

/-- TradingUI.check_order_status_ui (bot.py lines 528 to 552). -/
def check_order_status_ui (client : Client) (symbol : String) (order_id : Int) :
    UIResult × List GatewayCall :=
  let symbol := pyUpper (pyStrip symbol)
  match get_order_status client symbol order_id with
  | (.ok order, tr) => (.statusShown order, tr)
  | (.error e, tr) => (.errorShown e, tr)

/-- TradingUI.place_market_order_ui on the raw prompt strings (bot.py
lines 386 to 412): the quantity string is parsed with the float builtin
after the price query; a parse failure is the ValueError caught by the
action try block and rendered, with only the price query in the trace.
On a successful parse the rest of the flow is place_market_order_ui at
the parsed quantity, whose first step re-evaluates the same pure price
query, so result and trace agree with the source flow. -/
def place_market_order_ui_raw (client : Client)
    (symbol side quantityIn confirm : String) : UIResult × List GatewayCall :=
  match get_symbol_price client (pyUpper (pyStrip symbol)) with
  | (.error e, tr) => (.errorShown e, tr)
  | (.ok _current_price, tr) =>
    match pyFloat (pyStrip quantityIn) with
    | .error m => (.errorShown (.inputError m), tr)
    | .ok quantity => place_market_order_ui client symbol side quantity confirm

/-- TradingUI.place_limit_order_ui on the raw prompt strings (bot.py
lines 414 to 441): quantity is parsed before the limit price, each
failure caught and rendered as in the source. -/
def place_limit_order_ui_raw (client : Client)
    (symbol side quantityIn priceIn confirm : String) :
    UIResult × List GatewayCall :=
  match get_symbol_price client (pyUpper (pyStrip symbol)) with
  | (.error e, tr) => (.errorShown e, tr)
  | (.ok _current_price, tr) =>
    match pyFloat (pyStrip quantityIn) with
    | .error m => (.errorShown (.inputError m), tr)
    | .ok quantity =>
      match pyFloat (pyStrip priceIn) with
      | .error m => (.errorShown (.inputError m), tr)
      | .ok price => place_limit_order_ui client symbol side quantity price confirm

/-- TradingUI.place_stop_limit_order_ui on the raw prompt strings
(bot.py lines 443 to 472): quantity, stop price and limit price are
parsed in source order. -/
def place_stop_limit_order_ui_raw (client : Client)
    (symbol side quantityIn stopPriceIn limitPriceIn confirm : String) :
    UIResult × List GatewayCall :=
  match get_symbol_price client (pyUpper (pyStrip symbol)) with
  | (.error e, tr) => (.errorShown e, tr)
  | (.ok _current_price, tr) =>
    match pyFloat (pyStrip quantityIn) with
    | .error m => (.errorShown (.inputError m), tr)
    | .ok quantity =>
      match pyFloat (pyStrip stopPriceIn) with
      | .error m => (.errorShown (.inputError m), tr)
      | .ok stop_price =>
        match pyFloat (pyStrip limitPriceIn) with
        | .error m => (.errorShown (.inputError m), tr)
        | .ok limit_price =>
          place_stop_limit_order_ui client symbol side quantity stop_price
            limit_price confirm

/-- TradingUI.place_oco_order_ui on the raw prompt strings (bot.py lines
474 to 507): quantity, take-profit price and stop-loss price are parsed
in source order. -/
def place_oco_order_ui_raw (client : Client)
    (symbol side quantityIn tpPriceIn slPriceIn confirm : String) :
    UIResult × List GatewayCall :=
  match get_symbol_price client (pyUpper (pyStrip symbol)) with
  | (.error e, tr) => (.errorShown e, tr)
  | (.ok _current_price, tr) =>
    match pyFloat (pyStrip quantityIn) with
    | .error m => (.errorShown (.inputError m), tr)
    | .ok quantity =>
      match pyFloat (pyStrip tpPriceIn) with
      | .error m => (.errorShown (.inputError m), tr)
      | .ok tp_price =>
        match pyFloat (pyStrip slPriceIn) with
        | .error m => (.errorShown (.inputError m), tr)
        | .ok sl_price =>
          place_oco_order_ui client symbol side quantity tp_price sl_price confirm

/-- TradingUI.cancel_order_ui on the raw prompt strings (bot.py lines
509 to 526): the order id is parsed with the int builtin before the
confirmation prompt and with no gateway call before it; a parse failure
is caught and rendered with an empty trace. -/
def cancel_order_ui_raw (client : Client) (symbol orderIdIn confirm : String) :
    UIResult × List GatewayCall :=
  match pyInt (pyStrip orderIdIn) with
  | .error m => (.errorShown (.inputError m), [])
  | .ok order_id => cancel_order_ui client symbol order_id confirm

/-- TradingUI.check_order_status_ui on the raw prompt strings (bot.py
lines 528 to 552). -/
def check_order_status_ui_raw (client : Client) (symbol orderIdIn : String) :
    UIResult × List GatewayCall :=
  match pyInt (pyStrip orderIdIn) with
  | .error m => (.errorShown (.inputError m), [])
  | .ok order_id => check_order_status_ui client symbol order_id

/-- The inputs one menu cycle may consume: the menu choice plus every
prompt answer the selected action could read, all raw strings exactly as
typed; numeric fields are parsed inside the action via pyFloat and
pyInt, so malformed numeric input takes the caught-ValueError path of
the source. Fields an action never prompts for are ignored by it. -/
structure ActionInput where
  choice : String
  symbol : String
  side : String
  quantity : String
  price : String
  stop_price : String
  limit_price : String
  tp_price : String
  sl_price : String
  order_id : String
  confirm : String
deriving Repr

/-- Outcome of one pass through the menu dispatch (bot.py lines 562 to
584): either the selected action ran and rendered a UIResult, or the
choice was not a menu option and an invalid-option message was shown. -/
inductive CycleOutcome where
  | acted (r : UIResult)
  | invalidOption
deriving DecidableEq, Repr

/-- One dispatch of TradingUI.run on a non-exit choice (bot.py lines 562
to 584), assuming the choice string is already stripped. -/
def menuStep (client : Client) (a : ActionInput) : CycleOutcome × List GatewayCall :=
  if a.choice = "1" then
    let r := place_market_order_ui_raw client a.symbol a.side a.quantity a.confirm
    (.acted r.1, r.2)
  else if a.choice = "2" then
    let r := place_limit_order_ui_raw client a.symbol a.side a.quantity a.price
      a.confirm
    (.acted r.1, r.2)
  else if a.choice = "3" then
    let r := place_stop_limit_order_ui_raw client a.symbol a.side a.quantity
      a.stop_price a.limit_price a.confirm
    (.acted r.1, r.2)
  else if a.choice = "4" then
    let r := place_oco_order_ui_raw client a.symbol a.side a.quantity a.tp_price
      a.sl_price a.confirm
    (.acted r.1, r.2)
  else if a.choice = "5" then
    let r := display_balance client
    (.acted r.1, r.2)
  else if a.choice = "6" then
    let r := display_open_orders client a.symbol
    (.acted r.1, r.2)
  else if a.choice = "7" then
    let r := display_positions client
    (.acted r.1, r.2)
  else if a.choice = "8" then
    let r := cancel_order_ui_raw client a.symbol a.order_id a.confirm
    (.acted r.1, r.2)
  else if a.choice = "9" then
    let r := check_order_status_ui_raw client a.symbol a.order_id
    (.acted r.1, r.2)
  else
    (.invalidOption, [])

/-- Result of running the menu loop on a finite input script. exited is
true when the loop ended because the operator selected 0; false means
the script ran out with the loop still live. -/
structure RunResult where
  outcomes : List CycleOutcome
  exited : Bool
  calls : List GatewayCall
deriving DecidableEq, Repr

/-- TradingUI.run (bot.py lines 554 to 587): strip the choice, exit on
0, otherwise dispatch the action (whose own try blocks catch every
error) and loop. -/
def run (client : Client) : List ActionInput → RunResult
  | [] => { outcomes := [], exited := false, calls := [] }
  | a :: rest =>
    let choice := pyStrip a.choice
    if choice = "0" then
      { outcomes := [], exited := true, calls := [] }
    else
      let step := menuStep client { a with choice := choice }
      let r := run client rest
      { outcomes := step.1 :: r.outcomes, exited := r.exited,
        calls := step.2 ++ r.calls }

/-- Test client on which every API call succeeds. -/
def okClient : Client where
  futures_create_order := fun _ => .ok { orderId := 101, status := "NEW" }
  futures_cancel_order := fun _ oid => .ok { orderId := oid, status := "CANCELED" }
  futures_symbol_ticker := fun _ => .ok 100
  futures_account_balance := .ok [{ asset := "USDT", balance := 5000, availableBalance := 4000 }]
  futures_get_open_orders := fun _ => .ok []
  futures_position_information := fun _ => .ok []
  futures_get_order := fun _ oid => .ok { orderId := oid, status := "FILLED" }

/-- Test client on which every API call fails with the message boom. -/
def failClient : Client where
  futures_create_order := fun _ => .error "boom"
  futures_cancel_order := fun _ _ => .error "boom"
  futures_symbol_ticker := fun _ => .error "boom"
  futures_account_balance := .error "boom"
  futures_get_open_orders := fun _ => .error "boom"
  futures_position_information := fun _ => .error "boom"
  futures_get_order := fun _ _ => .error "boom"

/-- Test client on which the take-profit LIMIT creation succeeds but the
STOP_MARKET creation fails, and every query succeeds. -/
def tpOkSlFailClient : Client where
  futures_create_order := fun req =>
    if req.type == "STOP_MARKET" then .error "boom"
    else .ok { orderId := 11, status := "NEW" }
  futures_cancel_order := fun _ oid => .ok { orderId := oid, status := "CANCELED" }
  futures_symbol_ticker := fun _ => .ok 100
  futures_account_balance := .ok []
  futures_get_open_orders := fun _ => .ok []
  futures_position_information := fun _ => .ok []
  futures_get_order := fun _ oid => .ok { orderId := oid, status := "NEW" }

/-- Input script entry with every field defaulted to a benign value. -/
def sampleInput (choice : String) : ActionInput :=
  { choice := choice, symbol := "BTCUSDT", side := "BUY", quantity := "1",
    price := "100", stop_price := "95", limit_price := "94", tp_price := "110",
    sl_price := "90", order_id := "7", confirm := "y" }

/-- Client returning a fixed sample list of positions with amounts 0,
1.5 and -2. -/
def samplePositions : List Position :=
  [{ symbol := "BTCUSDT", positionAmt := 0, entryPrice := 0,
     unRealizedProfit := 0, leverage := 10 },
   { symbol := "ETHUSDT", positionAmt := mkRat 3 2, entryPrice := 2000,
     unRealizedProfit := 5, leverage := 5 },
   { symbol := "XRPUSDT", positionAmt := -2, entryPrice := 1,
     unRealizedProfit := -1, leverage := 3 }]

/-- Client whose position query returns samplePositions. -/
def posClient : Client :=
  { okClient with futures_position_information := fun _ => .ok samplePositions }

/-- Balance list with one zero and one negative entry. -/
def negSampleBalances : List Balance :=
  [{ asset := "USDT", balance := 0, availableBalance := 0 },
   { asset := "BNB", balance := -2, availableBalance := 0 }]

/-- Client whose balance query returns negSampleBalances. -/
def negClient : Client :=
  { okClient with futures_account_balance := .ok negSampleBalances }

/-- Helper for the confirmation analysis: the only characters whose
lowercase form is the letter y are y itself and uppercase Y. -/
theorem char_toLower_eq_y (c : Char) : c.toLower = 'y' ↔ c = 'y' ∨ c = 'Y' := by
  constructor
  · intro h
    rw [Char.toLower] at h
    split at h
    · rename_i hr
      have hv : (c.toNat + 32).isValidChar := by
        left
        have := hr.2
        omega
      have hx : (Char.ofNat (c.toNat + 32)).toNat = c.toNat + 32 := by
        rw [Char.ofNat, dif_pos hv]
        rfl
      rw [h] at hx
      have hy : ('y' : Char).toNat = 121 := by decide
      rw [hy] at hx
      have h89 : c.toNat = 89 := by omega
      right
      apply Char.ext
      have h2 : ('Y' : Char).val.toNat = 89 := by decide
      exact UInt32.toNat.inj (h89.trans h2.symm)
    · left
      exact h
  · rintro (rfl | rfl) <;> decide

/-- Helper: the only strings whose pyLower form is the string y are y
and Y. -/
theorem pyLower_eq_y (s : String) : pyLower s = "y" ↔ s = "y" ∨ s = "Y" := by
  rw [pyLower]
  constructor
  · intro h
    have hd : s.data.map Char.toLower = ['y'] := congrArg String.data h
    obtain ⟨data⟩ := s
    rcases data with _ | ⟨c, _ | ⟨c2, t⟩⟩
    · simp at hd
    · simp only [List.map_cons, List.map_nil, List.cons.injEq, and_true] at hd
      rcases (char_toLower_eq_y c).1 hd with rfl | rfl
      · left; rfl
      · right; rfl
    · simp at hd
  · rintro (rfl | rfl) <;> rfl

/-- C1: in place_oco_order, if the take-profit submission fails, the
stop-loss submission is never attempted (zero STOP_MARKET create-order
calls; the trace is exactly the one take-profit call) and the whole
operation fails with an ApiError carrying the exchange message. -/
theorem oco_tp_failure_stops (client : Client) (symbol side : String)
    (quantity tp sl : ℚ) (slp : Option ℚ) (e : String)
    (hside : pyUpper side ∈ (["BUY", "SELL"] : List String))
    (hfail : client.futures_create_order
      (tpRequest symbol (pyUpper side) quantity tp) = .error e) :
    (place_oco_order client symbol side quantity tp sl slp).1
      = .error (.apiError e) ∧
    (place_oco_order client symbol side quantity tp sl slp).2.countP
      isStopLossCreate = 0 ∧
    (place_oco_order client symbol side quantity tp sl slp).2
      = [.createOrder (tpRequest symbol (pyUpper side) quantity tp)] := by
  rw [place_oco_order.eq_def]
  rw [if_neg (not_not_intro hside)]
  simp only [hfail]
  refine ⟨by trivial, by simp [List.countP_cons, isStopLossCreate, tpRequest],
    by trivial⟩

theorem oco_tp_failure_stops_witness :
    (pyUpper "SELL" ∈ (["BUY", "SELL"] : List String)) ∧
    failClient.futures_create_order
      (tpRequest "BTCUSDT" (pyUpper "SELL") 1 110) = .error "boom" ∧
    ((place_oco_order failClient "BTCUSDT" "SELL" 1 110 90 none).1
        = .error (.apiError "boom") ∧
     (place_oco_order failClient "BTCUSDT" "SELL" 1 110 90 none).2.countP
        isStopLossCreate = 0 ∧
     (place_oco_order failClient "BTCUSDT" "SELL" 1 110 90 none).2
        = [.createOrder (tpRequest "BTCUSDT" (pyUpper "SELL") 1 110)]) :=
  ⟨by decide, rfl,
   oco_tp_failure_stops failClient "BTCUSDT" "SELL" 1 110 90 none "boom"
     (by decide) rfl⟩

/-- C2: in place_oco_order, if the take-profit submission succeeds and
the stop-loss submission fails, the call fails with an ApiError, the
trace contains no cancel-order call, and the already-placed take-profit
order is still on the exchange after the trace. -/
theorem oco_sl_failure_no_rollback (client : Client) (symbol side : String)
    (quantity tp sl : ℚ) (slp : Option ℚ) (tpo : Order) (e : String)
    (hside : pyUpper side ∈ (["BUY", "SELL"] : List String))
    (htp : client.futures_create_order
      (tpRequest symbol (pyUpper side) quantity tp) = .ok tpo)
    (hsl : client.futures_create_order
      (slRequest symbol (pyUpper side) quantity sl) = .error e) :
    (place_oco_order client symbol side quantity tp sl slp).1
      = .error (.apiError e) ∧
    (place_oco_order client symbol side quantity tp sl slp).2.countP
      isCancelCall = 0 ∧
    ordersRemaining client
      (place_oco_order client symbol side quantity tp sl slp).2 = [tpo] := by
  rw [place_oco_order.eq_def]
  rw [if_neg (not_not_intro hside)]
  simp only [htp, hsl]
  refine ⟨by trivial, by simp [List.countP_cons, isCancelCall], ?_⟩
  simp [ordersRemaining, applyCall, htp, hsl]

theorem oco_sl_failure_no_rollback_witness :
    (pyUpper "SELL" ∈ (["BUY", "SELL"] : List String)) ∧
    tpOkSlFailClient.futures_create_order
      (tpRequest "BTCUSDT" (pyUpper "SELL") 1 110)
      = .ok { orderId := 11, status := "NEW" } ∧
    tpOkSlFailClient.futures_create_order
      (slRequest "BTCUSDT" (pyUpper "SELL") 1 90) = .error "boom" ∧
    ((place_oco_order tpOkSlFailClient "BTCUSDT" "SELL" 1 110 90 none).1
        = .error (.apiError "boom") ∧
     (place_oco_order tpOkSlFailClient "BTCUSDT" "SELL" 1 110 90 none).2.countP
        isCancelCall = 0 ∧
     ordersRemaining tpOkSlFailClient
        (place_oco_order tpOkSlFailClient "BTCUSDT" "SELL" 1 110 90 none).2
        = [{ orderId := 11, status := "NEW" }]) :=
  ⟨by decide, rfl, rfl,
   oco_sl_failure_no_rollback tpOkSlFailClient "BTCUSDT" "SELL" 1 110 90 none
     { orderId := 11, status := "NEW" } "boom" (by decide) rfl rfl⟩

/-- C3: every order placement operation normalizes the side string
case-insensitively to uppercase; a side whose uppercase form is not BUY
or SELL is rejected with a ValidationError before any exchange call is
made (empty trace), and a side whose uppercase form is BUY or SELL
passes validation: the result is never a ValidationError and every
create-order call submitted carries the uppercased side. -/
theorem side_validation_normalizes (client : Client) (symbol side tif : String)
    (q p sp lp tp sl : ℚ) (slp : Option ℚ) :
    (pyUpper side ∉ (["BUY", "SELL"] : List String) →
      place_market_order client symbol side q
        = (.error (.validationError sideErrorMsg), []) ∧
      place_limit_order client symbol side q p tif
        = (.error (.validationError sideErrorMsg), []) ∧
      place_stop_limit_order client symbol side q sp lp tif
        = (.error (.validationError sideErrorMsg), []) ∧
      place_oco_order client symbol side q tp sl slp
        = (.error (.validationError sideErrorMsg), [])) ∧
    (pyUpper side ∈ (["BUY", "SELL"] : List String) →
      (∀ m, (place_market_order client symbol side q).1
        ≠ .error (.validationError m)) ∧
      (∀ m, (place_limit_order client symbol side q p tif).1
        ≠ .error (.validationError m)) ∧
      (∀ m, (place_stop_limit_order client symbol side q sp lp tif).1
        ≠ .error (.validationError m)) ∧
      (∀ m, (place_oco_order client symbol side q tp sl slp).1
        ≠ .error (.validationError m)) ∧
      (∀ r, .createOrder r ∈ (place_market_order client symbol side q).2
        → r.side = pyUpper side) ∧
      (∀ r, .createOrder r ∈ (place_limit_order client symbol side q p tif).2
        → r.side = pyUpper side) ∧
      (∀ r, .createOrder r
          ∈ (place_stop_limit_order client symbol side q sp lp tif).2
        → r.side = pyUpper side) ∧
      (∀ r, .createOrder r ∈ (place_oco_order client symbol side q tp sl slp).2
        → r.side = pyUpper side)) := by
  constructor
  · intro h
    refine ⟨?_, ?_, ?_, ?_⟩
    · simp only [place_market_order.eq_def]
      rw [if_pos h]
    · simp only [place_limit_order.eq_def]
      rw [if_pos h]
    · simp only [place_stop_limit_order.eq_def]
      rw [if_pos h]
    · simp only [place_oco_order.eq_def]
      rw [if_pos h]
  · intro h
    have hn := not_not_intro h
    refine ⟨?_, ?_, ?_, ?_, ?_, ?_, ?_, ?_⟩
    · intro m
      simp only [place_market_order.eq_def]
      rw [if_neg hn]
      cases hc : client.futures_create_order (marketRequest symbol (pyUpper side) q) <;>
        simp [hc]
    · intro m
      simp only [place_limit_order.eq_def]
      rw [if_neg hn]
      cases hc : client.futures_create_order
          (limitRequest symbol (pyUpper side) q p tif) <;>
        simp [hc]
    · intro m
      simp only [place_stop_limit_order.eq_def]
      rw [if_neg hn]
      cases hc : client.futures_create_order
          (stopLimitRequest symbol (pyUpper side) q sp lp tif) <;>
        simp [hc]
    · intro m
      simp only [place_oco_order.eq_def]
      rw [if_neg hn]
      cases hc : client.futures_create_order (tpRequest symbol (pyUpper side) q tp)
      · simp [hc]
      · cases hc2 : client.futures_create_order (slRequest symbol (pyUpper side) q sl) <;>
          simp [hc, hc2]
    · intro r hr
      simp only [place_market_order.eq_def] at hr
      rw [if_neg hn] at hr
      cases hc : client.futures_create_order (marketRequest symbol (pyUpper side) q) <;>
        simp [hc] at hr <;> simp [hr, marketRequest]
    · intro r hr
      simp only [place_limit_order.eq_def] at hr
      rw [if_neg hn] at hr
      cases hc : client.futures_create_order
          (limitRequest symbol (pyUpper side) q p tif) <;>
        simp [hc] at hr <;> simp [hr, limitRequest]
    · intro r hr
      simp only [place_stop_limit_order.eq_def] at hr
      rw [if_neg hn] at hr
      cases hc : client.futures_create_order
          (stopLimitRequest symbol (pyUpper side) q sp lp tif) <;>
        simp [hc] at hr <;> simp [hr, stopLimitRequest]
    · intro r hr
      simp only [place_oco_order.eq_def] at hr
      rw [if_neg hn] at hr
      cases hc : client.futures_create_order (tpRequest symbol (pyUpper side) q tp)
      · simp [hc] at hr
        simp [hr, tpRequest]
      · cases hc2 : client.futures_create_order (slRequest symbol (pyUpper side) q sl) <;>
          simp [hc, hc2] at hr <;>
          rcases hr with rfl | rfl <;>
          simp [tpRequest, slRequest]

theorem side_validation_normalizes_witness :
    (pyUpper "hold" ∉ (["BUY", "SELL"] : List String)) ∧
    place_market_order okClient "BTCUSDT" "hold" 1
      = (.error (.validationError sideErrorMsg), []) ∧
    (pyUpper "sell" ∈ (["BUY", "SELL"] : List String)) ∧
    (∀ m, (place_market_order okClient "BTCUSDT" "sell" 1).1
      ≠ .error (.validationError m)) :=
  ⟨by decide,
   ((side_validation_normalizes okClient "BTCUSDT" "hold" "GTC"
      1 1 1 1 1 1 none).1 (by decide)).1,
   by decide,
   ((side_validation_normalizes okClient "BTCUSDT" "sell" "GTC"
      1 1 1 1 1 1 none).2 (by decide)).1⟩

/-- C4: the stop_limit_price argument of place_oco_order (supplied or
defaulted) has no effect at all: two runs differing only in it are equal
as result-and-trace pairs, because the stop-loss leg is a STOP_MARKET
order carrying only the stop trigger price. -/
theorem oco_stop_limit_price_unused (client : Client) (symbol side : String)
    (quantity tp sl : ℚ) (slp₁ slp₂ : Option ℚ) :
    place_oco_order client symbol side quantity tp sl slp₁ =
      place_oco_order client symbol side quantity tp sl slp₂ := rfl

/-- C5: the default stop limit price of the OCO emulation is the stop
loss price times 0.99 for side SELL and times 1.01 for side BUY; at stop
loss price 100 this gives 99 and 101. The last conjunct records that
place_oco_order with no supplied stop limit price behaves as if exactly
this default had been supplied. -/
theorem oco_default_stop_limit_price_spec (sl : ℚ) :
    ocoDefaultStopLimitPrice "SELL" sl = sl * (99 / 100) ∧
    ocoDefaultStopLimitPrice "BUY" sl = sl * (101 / 100) ∧
    ocoDefaultStopLimitPrice "SELL" 100 = 99 ∧
    ocoDefaultStopLimitPrice "BUY" 100 = 101 ∧
    (∀ (client : Client) (symbol side : String) (q tp slPrice : ℚ),
      place_oco_order client symbol side q tp slPrice none =
        place_oco_order client symbol side q tp slPrice
          (some (ocoDefaultStopLimitPrice (pyUpper side) slPrice))) := by
  refine ⟨?_, ?_, ?_, ?_, fun _ _ _ _ _ _ => rfl⟩
  · rw [ocoDefaultStopLimitPrice, if_pos rfl]
  · rw [ocoDefaultStopLimitPrice, if_neg (by decide)]
  · rw [ocoDefaultStopLimitPrice, if_pos rfl]; norm_num
  · rw [ocoDefaultStopLimitPrice, if_neg (by decide)]; norm_num

/-- C6: get_position_info returns, for any position list the exchange
reports, exactly the positions whose signed amount is nonzero, keeping
negative amounts; on amounts 0, 1.5 and -2 the result has length 2 (see
the witness). -/
theorem get_positions_excludes_zero (client : Client) (sym : Option String)
    (ps : List Position)
    (h : client.futures_position_information sym = .ok ps) :
    (get_position_info client sym).1
      = .ok (ps.filter fun p => decide (p.positionAmt ≠ 0)) ∧
    (∀ p : Position,
      p ∈ ps.filter (fun p => decide (p.positionAmt ≠ 0)) ↔
        p ∈ ps ∧ p.positionAmt ≠ 0) := by
  constructor
  · rw [get_position_info, h]
  · intro p
    simp [List.mem_filter]

theorem get_positions_excludes_zero_witness :
    posClient.futures_position_information none = .ok samplePositions ∧
    ((get_position_info posClient none).1
        = .ok (samplePositions.filter fun p => decide (p.positionAmt ≠ 0)) ∧
     (∀ p : Position,
        p ∈ samplePositions.filter (fun p => decide (p.positionAmt ≠ 0)) ↔
          p ∈ samplePositions ∧ p.positionAmt ≠ 0)) ∧
    (samplePositions.filter fun p => decide (p.positionAmt ≠ 0)).length = 2 :=
  ⟨rfl, get_positions_excludes_zero posClient none samplePositions rfl,
   by decide⟩

/-- C7 counterexample: declining the market-order confirmation does not
leave the gateway trace empty: the price query issued before the prompt
is a gateway call made during the menu action, so the claim of zero
gateway calls on decline is false as stated. -/
theorem decline_zero_calls_counterexample :
    (place_market_order_ui okClient "BTCUSDT" "BUY" 1 "n").1 = .declined ∧
    (place_market_order_ui okClient "BTCUSDT" "BUY" 1 "n").2
      = [.symbolTicker "BTCUSDT"] ∧
    (place_market_order_ui okClient "BTCUSDT" "BUY" 1 "n").2 ≠ [] := by
  refine ⟨?_, ?_, ?_⟩ <;> decide

/-- C7 amended: declining confirmation makes zero order-mutating gateway
calls (no create-order and no cancel-order call) in every order action;
for the four order placement actions the whole trace is exactly the one
price query issued before the prompt, and for the cancel action the
trace is empty. -/
theorem decline_no_mutating_calls (client : Client) (symbol side : String)
    (q p sp lp tp sl : ℚ) (oid : Int) (confirm : String)
    (h : isAffirmative confirm = false) :
    (place_market_order_ui client symbol side q confirm).2
      = [.symbolTicker (pyUpper (pyStrip symbol))] ∧
    (place_limit_order_ui client symbol side q p confirm).2
      = [.symbolTicker (pyUpper (pyStrip symbol))] ∧
    (place_stop_limit_order_ui client symbol side q sp lp confirm).2
      = [.symbolTicker (pyUpper (pyStrip symbol))] ∧
    (place_oco_order_ui client symbol side q tp sl confirm).2
      = [.symbolTicker (pyUpper (pyStrip symbol))] ∧
    (cancel_order_ui client symbol oid confirm).2 = [] ∧
    (place_market_order_ui client symbol side q confirm).2.countP
      isMutatingCall = 0 ∧
    (place_limit_order_ui client symbol side q p confirm).2.countP
      isMutatingCall = 0 ∧
    (place_stop_limit_order_ui client symbol side q sp lp confirm).2.countP
      isMutatingCall = 0 ∧
    (place_oco_order_ui client symbol side q tp sl confirm).2.countP
      isMutatingCall = 0 ∧
    (cancel_order_ui client symbol oid confirm).2.countP isMutatingCall = 0 := by
  have hmkt : (place_market_order_ui client symbol side q confirm).2
      = [.symbolTicker (pyUpper (pyStrip symbol))] := by
    simp only [place_market_order_ui.eq_def, get_symbol_price.eq_def]
    cases hc : client.futures_symbol_ticker (pyUpper (pyStrip symbol)) <;>
      simp [hc, h]
  have hlim : (place_limit_order_ui client symbol side q p confirm).2
      = [.symbolTicker (pyUpper (pyStrip symbol))] := by
    simp only [place_limit_order_ui.eq_def, get_symbol_price.eq_def]
    cases hc : client.futures_symbol_ticker (pyUpper (pyStrip symbol)) <;>
      simp [hc, h]
  have hstp : (place_stop_limit_order_ui client symbol side q sp lp confirm).2
      = [.symbolTicker (pyUpper (pyStrip symbol))] := by
    simp only [place_stop_limit_order_ui.eq_def, get_symbol_price.eq_def]
    cases hc : client.futures_symbol_ticker (pyUpper (pyStrip symbol)) <;>
      simp [hc, h]
  have hoco : (place_oco_order_ui client symbol side q tp sl confirm).2
      = [.symbolTicker (pyUpper (pyStrip symbol))] := by
    simp only [place_oco_order_ui.eq_def, get_symbol_price.eq_def]
    cases hc : client.futures_symbol_ticker (pyUpper (pyStrip symbol)) <;>
      simp [hc, h]
  have hcan : (cancel_order_ui client symbol oid confirm).2 = [] := by
    simp [cancel_order_ui.eq_def, h]
  refine ⟨hmkt, hlim, hstp, hoco, hcan, ?_, ?_, ?_, ?_, ?_⟩ <;>
    simp [hmkt, hlim, hstp, hoco, hcan, List.countP_cons, isMutatingCall]

theorem decline_no_mutating_calls_witness :
    isAffirmative "n" = false ∧
    (place_market_order_ui okClient "BTCUSDT" "BUY" 1 "n").2
      = [.symbolTicker (pyUpper (pyStrip "BTCUSDT"))] ∧
    (cancel_order_ui okClient "BTCUSDT" 7 "n").2 = [] :=
  ⟨by decide,
   (decline_no_mutating_calls okClient "BTCUSDT" "BUY" 1 1 1 1 1 1 7 "n"
     (by decide)).1,
   (decline_no_mutating_calls okClient "BTCUSDT" "BUY" 1 1 1 1 1 1 7 "n"
     (by decide)).2.2.2.2.1⟩

/-- C8: the menu loop exits exactly when some submitted choice strips to
the exit option 0, and every cycle before the first exit choice
completes and renders an outcome, whatever the client and the raw prompt
strings are, so neither a gateway failure nor malformed input terminates
the loop. The concrete conjuncts run the loop to the exit option through
a failing balance query (rendered as a caught ApiError), a market order
with unparseable quantity (rendered as the caught float ValueError after
the one price query), and a cancel with unparseable order id (rendered
as the caught int ValueError with no gateway call). -/
theorem menu_loop_exits_only_on_zero (client : Client)
    (inputs : List ActionInput) :
    (run client inputs).exited
      = inputs.any (fun a => pyStrip a.choice == "0") ∧
    (run client inputs).outcomes.length
      = (inputs.takeWhile fun a => !(pyStrip a.choice == "0")).length ∧
    run failClient [sampleInput "5", sampleInput "0"]
      = { outcomes := [.acted (.errorShown (.apiError "boom"))],
          exited := true, calls := [.accountBalance] } ∧
    run okClient [{ sampleInput "1" with quantity := "abc" }, sampleInput "0"]
      = { outcomes := [.acted (.errorShown
            (.inputError "could not convert string to float: abc"))],
          exited := true, calls := [.symbolTicker "BTCUSDT"] } ∧
    run okClient [{ sampleInput "8" with order_id := "7x" }, sampleInput "0"]
      = { outcomes := [.acted (.errorShown
            (.inputError "invalid literal for int with base 10: 7x"))],
          exited := true, calls := [] } := by
  have main : ∀ ins : List ActionInput,
      (run client ins).exited = ins.any (fun a => pyStrip a.choice == "0") ∧
      (run client ins).outcomes.length
        = (ins.takeWhile fun a => !(pyStrip a.choice == "0")).length := by
    intro ins
    induction ins with
    | nil => exact ⟨rfl, rfl⟩
    | cons a rest ih =>
      by_cases h0 : pyStrip a.choice = "0"
      · constructor <;> simp [run, h0]
      · constructor <;> simp [run, h0, ih.1, ih.2]
  exact ⟨(main inputs).1, (main inputs).2, by decide, by decide, by decide⟩

/-- C9: the balance view renders exactly the rows whose balance is
strictly positive: entries with zero or negative balance are omitted
even though get_account_balance returns them. The last two conjuncts
contrast this with the positions view, which keeps a negative amount:
on negSampleBalances (balances 0 and -2) nothing is rendered, while on
samplePositions (amounts 0, 1.5, -2) the -2 position is rendered. -/
theorem display_balance_positive_only (client : Client) (bs : List Balance)
    (h : client.futures_account_balance = .ok bs) :
    display_balance client
      = (.balanceShown (bs.filter fun a => decide (0 < a.balance)),
         [.accountBalance]) ∧
    (∀ b : Balance, b ∈ bs.filter (fun a => decide (0 < a.balance)) ↔
        b ∈ bs ∧ 0 < b.balance) ∧
    (get_account_balance client).1 = .ok bs ∧
    (display_balance negClient).1 = .balanceShown [] ∧
    (display_positions posClient).1
      = .positionsShown
          [{ symbol := "ETHUSDT", positionAmt := mkRat 3 2, entryPrice := 2000,
             unRealizedProfit := 5, leverage := 5 },
           { symbol := "XRPUSDT", positionAmt := -2, entryPrice := 1,
             unRealizedProfit := -1, leverage := 3 }] := by
  refine ⟨?_, ?_, ?_, by decide, by decide⟩
  · simp [display_balance.eq_def, get_account_balance.eq_def, h]
  · intro b
    simp [List.mem_filter]
  · simp [get_account_balance.eq_def, h]

theorem display_balance_positive_only_witness :
    negClient.futures_account_balance = .ok negSampleBalances ∧
    display_balance negClient
      = (.balanceShown (negSampleBalances.filter fun a => decide (0 < a.balance)),
         [.accountBalance]) ∧
    (negSampleBalances.filter fun a => decide (0 < a.balance)) = [] :=
  ⟨rfl,
   (display_balance_positive_only negClient negSampleBalances rfl).1,
   by decide⟩

/-- C10: the confirmation prompts accept exactly the strings y and Y
(the single letter y compared case-insensitively); any other answer,
including the word yes, is not affirmative and aborts the action: the
cancel action then issues no gateway call and reports the decline, and
the market-order action (once the pre-prompt price query has succeeded)
reports the decline as well. -/
theorem confirm_accepts_exactly_y (s : String) :
    (isAffirmative s = true ↔ s = "y" ∨ s = "Y") ∧
    isAffirmative "yes" = false ∧
    (isAffirmative s = false →
      ∀ (client : Client) (symbol sideIn : String) (oid : Int) (q pr : ℚ),
        (cancel_order_ui client symbol oid s).1 = .declined ∧
        (cancel_order_ui client symbol oid s).2 = [] ∧
        (client.futures_symbol_ticker (pyUpper (pyStrip symbol)) = .ok pr →
          (place_market_order_ui client symbol sideIn q s).1 = .declined)) := by
  refine ⟨?_, by decide, ?_⟩
  · rw [isAffirmative, beq_iff_eq]
    exact pyLower_eq_y s
  · intro h client symbol sideIn oid q pr
    refine ⟨?_, ?_, ?_⟩
    · simp [cancel_order_ui.eq_def, h]
    · simp [cancel_order_ui.eq_def, h]
    · intro hp
      simp [place_market_order_ui.eq_def, get_symbol_price.eq_def, hp, h]

theorem confirm_accepts_exactly_y_witness :
    isAffirmative "yes" = false ∧
    (isAffirmative "Y" = true ↔ ("Y" = "y" ∨ "Y" = "Y")) ∧
    (cancel_order_ui okClient "BTCUSDT" 7 "no").1 = .declined :=
  ⟨(confirm_accepts_exactly_y "yes").2.1,
   (confirm_accepts_exactly_y "Y").1,
   ((confirm_accepts_exactly_y "no").2.2 (by decide)
      okClient "BTCUSDT" "BUY" 7 1 100).1⟩

end BinanceBot
